import Mathlib

/-
Verification of the image/depth preprocessing pipeline of
`data/base_dataset.py` (struct-preserving-cyclegan).

The embedding models PIL images by their spatial dimensions together with
the exact trace of geometric/photometric operations applied to them (the
pixel content of an output is a deterministic function of the input pixels
and that trace, so trace equality is the right notion of "bit-identical
output" and trace inequality witnesses differing outputs).  Randomness is
modelled by an explicit stream of draws (`RNG`), mirroring the ambient
`random` / `np.random` / `torch` sources the code consumes; Python `dict`
subscripting failures are modelled by `Except` with `TypeError`/`KeyError`
values, matching Python semantics (`None["k"]` is a TypeError, a missing
key is a KeyError, unpacking a non-sequence is a TypeError).
-/

set_option maxHeartbeats 1600000
set_option linter.unusedVariables false

namespace BaseData

/-- Python `round` applied to an exact rational: nearest integer, ties to
even (banker's rounding), as used by the source's `round(...)` calls. -/
def pyRound (q : ℚ) : Int :=
  if q - ⌊q⌋ < 1/2 then ⌊q⌋
  else if 1/2 < q - ⌊q⌋ then ⌊q⌋ + 1
  else if ⌊q⌋ % 2 = 0 then ⌊q⌋ else ⌊q⌋ + 1

/-- Python substring membership `pat in s`. -/
def containsSub (s pat : String) : Bool :=
  s.toList.tails.any (fun t => pat.toList.isPrefixOf t)

/-- Geometric/photometric operations recorded in an image's trace.  The
pixel content of a transformed image is a deterministic function of the
original pixels and this operation list. -/
inductive GOp where
  | resizeTo (w h : Nat)
  | cropBox (x1 y1 x2 y2 : Int)
  | flipLR
  | grayOp
  | tensorOp
  | normOp (gray : Bool)
deriving DecidableEq, Repr

/-- PIL image: spatial size plus the trace of operations applied so far
(most recent first). -/
structure Image where
  width : Nat
  height : Nat
  ops : List GOp
deriving DecidableEq, Repr

/-- PIL `img.resize((w, h), method)`: the size argument is (width, height). -/
def pilResize (img : Image) (w h : Nat) : Image :=
  ⟨w, h, .resizeTo w h :: img.ops⟩

/-- PIL `img.crop((x1, y1, x2, y2))`: box (left, upper, right, lower); the
box may extend outside the image (PIL pads), the output size is always
(x2 - x1, y2 - y1). -/
def pilCrop (img : Image) (x1 y1 x2 y2 : Int) : Image :=
  ⟨(x2 - x1).toNat, (y2 - y1).toNat, .cropBox x1 y1 x2 y2 :: img.ops⟩

/-- PIL `img.transpose(Image.FLIP_LEFT_RIGHT)`: size is unchanged. -/
def pilFlip (img : Image) : Image := ⟨img.width, img.height, .flipLR :: img.ops⟩

/-- `transforms.Grayscale(1)`: size is unchanged. -/
def pilGray (img : Image) : Image := ⟨img.width, img.height, .grayOp :: img.ops⟩

/-- `ToTensor` / `tf.to_tensor`: size is unchanged. -/
def pilTensor (img : Image) : Image := ⟨img.width, img.height, .tensorOp :: img.ops⟩

/-- `transforms.Normalize` with the grayscale-dependent statistics. -/
def pilNorm (img : Image) (gray : Bool) : Image :=
  ⟨img.width, img.height, .normOp gray :: img.ops⟩

/-- torchvision `transforms.Resize([s0, s1])` / `tf.resize(img, [s0, s1])`:
a 2-element size sequence is interpreted as (height, width) by torchvision,
so the output has height `s0` and width `s1`. -/
def torchResize (img : Image) (s0 s1 : Nat) : Image := pilResize img s1 s0

@[simp] theorem pilFlip_width (i : Image) : (pilFlip i).width = i.width := rfl
@[simp] theorem pilFlip_height (i : Image) : (pilFlip i).height = i.height := rfl
@[simp] theorem pilGray_width (i : Image) : (pilGray i).width = i.width := rfl
@[simp] theorem pilGray_height (i : Image) : (pilGray i).height = i.height := rfl
@[simp] theorem pilTensor_width (i : Image) : (pilTensor i).width = i.width := rfl
@[simp] theorem pilTensor_height (i : Image) : (pilTensor i).height = i.height := rfl
@[simp] theorem pilNorm_width (i : Image) (b : Bool) : (pilNorm i b).width = i.width := rfl
@[simp] theorem pilNorm_height (i : Image) (b : Bool) : (pilNorm i b).height = i.height := rfl

/-- The ambient random source, modelled as explicit streams of draws:
`ints` feeds the integer draws (`random.randint`, `np.random.randint`,
`torch.randint`), `floats` (each in `[0,1)`) feeds the float draws
(`random.random`, `np.random.rand`, `np.random.uniform`, `torch.rand`). -/
structure RNG where
  ints : List Nat
  floats : List ℚ
deriving DecidableEq, Repr

def RNG.takeInt (g : RNG) : Nat × RNG :=
  match g.ints with
  | [] => (0, g)
  | n :: rest => (n, ⟨rest, g.floats⟩)

def RNG.takeFloat (g : RNG) : ℚ × RNG :=
  match g.floats with
  | [] => (0, g)
  | q :: rest => (q, ⟨g.ints, rest⟩)

/-- Python `random.randint(a, b)`: uniform integer in the inclusive range
`[a, b]`. -/
def pyRandint (a b : Int) (g : RNG) : Int × RNG :=
  let p := g.takeInt
  (a + (p.1 : Int) % (b - a + 1), p.2)

/-- `np.random.randint(n)` and `torch.randint(0, n, ...)`: uniform integer
in `[0, n)` (call sites always have `n > 0`). -/
def npRandint (n : Nat) (g : RNG) : Nat × RNG :=
  let p := g.takeInt
  (if n = 0 then 0 else p.1 % n, p.2)

/-- The dict returned by `get_params` / passed as `params`: each key of the
Python dict is an `Option` field (`none` = key absent). -/
structure ParamRecord where
  crop_pos : Option (Int × Int)
  flip : Option Bool
  scale_factor : Option (ℚ × ℚ)
  patch_index : Option Nat
  size : Option (Nat × Nat)
deriving DecidableEq, Repr

/-- Python exceptions raised by the pipeline. -/
inductive PyErr where
  | typeError (msg : String)
  | keyError (key : String)
  | valueError (msg : String)
deriving DecidableEq, Repr

/-- Whether an error message/value names a given field. -/
def identifiesField : PyErr → String → Bool
  | .keyError k, f => k == f
  | .typeError m, f => containsSub m f
  | .valueError m, f => containsSub m f

/-! ## Source translations (functions of `data/base_dataset.py`) -/

/-- Configuration flags consumed by the pipeline. -/
structure Opt where
  preprocess : String
  load_size : Nat
  crop_size : Nat
  no_flip : Bool
  dataroot : String
deriving DecidableEq, Repr

/-- `get_params(opt, size)` (lines 65-80). -/
def get_params (opt : Opt) (size : Nat × Nat) (g : RNG) : ParamRecord × RNG :=
  let w := size.1
  let h := size.2
  let nwh : Nat × Nat :=
    if opt.preprocess = "resize_and_crop" then (opt.load_size, opt.load_size)
    else if opt.preprocess = "scale_width_and_crop" then
      (opt.load_size, opt.load_size * h / w)
    else (w, h)
  let p1 := pyRandint 0 (max 0 ((nwh.1 : Int) - (opt.crop_size : Int))) g
  let p2 := pyRandint 0 (max 0 ((nwh.2 : Int) - (opt.crop_size : Int))) p1.2
  let p3 := p2.2.takeFloat
  (⟨some (p1.1, p2.1), some (decide ((1:ℚ)/2 < p3.1)), none, none, none⟩, p3.2)

/-- `__make_power_2(img, base, method)` (lines 135-142).  Note: the source
body performs the resize silently; it contains no call to
`__print_size_warning`. -/
def make_power_2 (img : Image) (base : Nat) : Image :=
  let ow := img.width
  let oh := img.height
  let h := (pyRound ((oh : ℚ) / (base : ℚ)) * (base : Int)).toNat
  let w := (pyRound ((ow : ℚ) / (base : ℚ)) * (base : Int)).toNat
  if h = oh ∧ w = ow then img
  else pilResize img w h

/-- `__make_power_2_dual(img, depth, base, method)` (lines 144-151). -/
def make_power_2_dual (img depth : Image) (base : Nat) : Image × Image :=
  let ow := img.width
  let oh := img.height
  let h := (pyRound ((oh : ℚ) / (base : ℚ)) * (base : Int)).toNat
  let w := (pyRound ((ow : ℚ) / (base : ℚ)) * (base : Int)).toNat
  if h = oh ∧ w = ow then (img, depth)
  else (pilResize img w h, pilResize depth w h)

/-- `__random_zoom(img, target_width, crop_width, method, factor)`
(lines 153-162).  `np.random.uniform(0.8, 1.0, size=[2])` is modelled by
mapping two unit-interval draws through `0.8 + 0.2 * u`. -/
def random_zoom (img : Image) (target_width crop_width : Nat)
    (factor : Option (ℚ × ℚ)) (g : RNG) : Image × RNG :=
  let zg : (ℚ × ℚ) × RNG :=
    match factor with
    | none =>
      let f1 := g.takeFloat
      let f2 := f1.2.takeFloat
      ((4/5 + f1.1 * (1/5), 4/5 + f2.1 * (1/5)), f2.2)
    | some fac => (fac, g)
  let zoomw : ℚ := max (crop_width : ℚ) ((img.width : ℚ) * zg.1.1)
  let zoomh : ℚ := max (crop_width : ℚ) ((img.height : ℚ) * zg.1.2)
  (pilResize img (pyRound zoomw).toNat (pyRound zoomh).toNat, zg.2)

/-- `__random_zoom_dual` (lines 164-174): zoom levels computed once from
`img.size` and applied to both rasters. -/
def random_zoom_dual (img depth : Image) (target_width crop_width : Nat)
    (factor : Option (ℚ × ℚ)) (g : RNG) : (Image × Image) × RNG :=
  let zg : (ℚ × ℚ) × RNG :=
    match factor with
    | none =>
      let f1 := g.takeFloat
      let f2 := f1.2.takeFloat
      ((4/5 + f1.1 * (1/5), 4/5 + f2.1 * (1/5)), f2.2)
    | some fac => (fac, g)
  let zoomw : ℚ := max (crop_width : ℚ) ((img.width : ℚ) * zg.1.1)
  let zoomh : ℚ := max (crop_width : ℚ) ((img.height : ℚ) * zg.1.2)
  ((pilResize img (pyRound zoomw).toNat (pyRound zoomh).toNat,
    pilResize depth (pyRound zoomw).toNat (pyRound zoomh).toNat), zg.2)

/-- `__scale_shortside` (lines 177-184). -/
def scale_shortside (img : Image) (target_width crop_width : Nat) : Image :=
  let ow := img.width
  let oh := img.height
  let shortside := min ow oh
  if target_width ≤ shortside then img
  else
    let scale : ℚ := (target_width : ℚ) / (shortside : ℚ)
    pilResize img (pyRound ((ow : ℚ) * scale)).toNat (pyRound ((oh : ℚ) * scale)).toNat

/-- Return value of the dual scale helpers: the source returns a bare image
(not a pair) in the no-op branches of `__scale_width_dual` and
`__scale_shortside_dual`. -/
inductive DualRet where
  | pair (img depth : Image)
  | single (img : Image)
deriving DecidableEq, Repr

/-- `__scale_shortside_dual` (lines 186-193).  In the `shortside >=
target_width` branch the source returns only `img`. -/
def scale_shortside_dual (img depth : Image) (target_width crop_width : Nat) : DualRet :=
  let ow := img.width
  let oh := img.height
  let shortside := min ow oh
  if target_width ≤ shortside then .single img
  else
    let scale : ℚ := (target_width : ℚ) / (shortside : ℚ)
    .pair (pilResize img (pyRound ((ow : ℚ) * scale)).toNat (pyRound ((oh : ℚ) * scale)).toNat)
          (pilResize depth (pyRound ((ow : ℚ) * scale)).toNat (pyRound ((oh : ℚ) * scale)).toNat)

/-- `__trim(img, trim_width)` (lines 195-209). -/
def trim (img : Image) (trim_width : Nat) (g : RNG) : Image × RNG :=
  let ow := img.width
  let oh := img.height
  let px : (Nat × Nat) × RNG :=
    if trim_width < ow then
      let p := npRandint (ow - trim_width) g
      ((p.1, p.1 + trim_width), p.2)
    else ((0, ow), g)
  let py : (Nat × Nat) × RNG :=
    if trim_width < oh then
      let p := npRandint (oh - trim_width) px.2
      ((p.1, p.1 + trim_width), p.2)
    else ((0, oh), px.2)
  (pilCrop img (px.1.1 : Int) (py.1.1 : Int) (px.1.2 : Int) (py.1.2 : Int), py.2)

/-- `__trim_dual` (lines 211-225): one sampled window applied to both. -/
def trim_dual (img depth : Image) (trim_width : Nat) (g : RNG) :
    (Image × Image) × RNG :=
  let ow := img.width
  let oh := img.height
  let px : (Nat × Nat) × RNG :=
    if trim_width < ow then
      let p := npRandint (ow - trim_width) g
      ((p.1, p.1 + trim_width), p.2)
    else ((0, ow), g)
  let py : (Nat × Nat) × RNG :=
    if trim_width < oh then
      let p := npRandint (oh - trim_width) px.2
      ((p.1, p.1 + trim_width), p.2)
    else ((0, oh), px.2)
  ((pilCrop img (px.1.1 : Int) (py.1.1 : Int) (px.1.2 : Int) (py.1.2 : Int),
    pilCrop depth (px.1.1 : Int) (py.1.1 : Int) (px.1.2 : Int) (py.1.2 : Int)), py.2)

/-- `__scale_width` (lines 227-233).  `int(max(target_width * oh / ow,
crop_width))` is Python float division, then truncation of the nonnegative
maximum. -/
def scale_width (img : Image) (target_width crop_width : Nat) : Image :=
  let ow := img.width
  let oh := img.height
  if ow = target_width ∧ crop_width ≤ oh then img
  else
    let w := target_width
    let h := (⌊max ((target_width : ℚ) * (oh : ℚ) / (ow : ℚ)) ((crop_width : ℚ))⌋).toNat
    pilResize img w h

/-- `__scale_width_dual` (lines 235-241).  In the no-op branch the source
returns only `img`, not a pair. -/
def scale_width_dual (img depth : Image) (target_width crop_width : Nat) : DualRet :=
  let ow := img.width
  let oh := img.height
  if ow = target_width ∧ crop_width ≤ oh then .single img
  else
    let w := target_width
    let h := (⌊max ((target_width : ℚ) * (oh : ℚ) / (ow : ℚ)) ((crop_width : ℚ))⌋).toNat
    .pair (pilResize img w h) (pilResize depth w h)

/-- `__crop(img, pos, size)` (lines 244-250). -/
def crop (img : Image) (pos : Int × Int) (size : Nat) : Image :=
  let ow := img.width
  let oh := img.height
  let tw := size
  let th := size
  if tw < ow ∨ th < oh then
    pilCrop img pos.1 pos.2 (pos.1 + (tw : Int)) (pos.2 + (th : Int))
  else img

/-- `__crop_dual` (lines 252-258). -/
def crop_dual (img depth : Image) (pos : Int × Int) (size : Nat) : Image × Image :=
  let ow := img.width
  let oh := img.height
  let tw := size
  let th := size
  if tw < ow ∨ th < oh then
    (pilCrop img pos.1 pos.2 (pos.1 + (tw : Int)) (pos.2 + (th : Int)),
     pilCrop depth pos.1 pos.2 (pos.1 + (tw : Int)) (pos.2 + (th : Int)))
  else (img, depth)

/-- `__patch(img, index, size)` (lines 260-273): the grid margin
`startx, starty` is sampled internally on every call. -/
def patch (img : Image) (index : Nat) (size : Nat) (g : RNG) : Image × RNG :=
  let ow := img.width
  let oh := img.height
  let nw := ow / size
  let nh := oh / size
  let roomx := ow - nw * size
  let roomy := oh - nh * size
  let p1 := npRandint (roomx + 1) g
  let p2 := npRandint (roomy + 1) p1.2
  let idx := index % (nw * nh)
  let ix := idx / nh
  let iy := idx % nh
  let gridx := p1.1 + ix * size
  let gridy := p2.1 + iy * size
  (pilCrop img (gridx : Int) (gridy : Int) ((gridx + size : Nat) : Int)
    ((gridy + size : Nat) : Int), p2.2)

/-- `__patch_dual` (lines 275-288). -/
def patch_dual (img depth : Image) (index : Nat) (size : Nat) (g : RNG) :
    (Image × Image) × RNG :=
  let ow := img.width
  let oh := img.height
  let nw := ow / size
  let nh := oh / size
  let roomx := ow - nw * size
  let roomy := oh - nh * size
  let p1 := npRandint (roomx + 1) g
  let p2 := npRandint (roomy + 1) p1.2
  let idx := index % (nw * nh)
  let ix := idx / nh
  let iy := idx % nh
  let gridx := p1.1 + ix * size
  let gridy := p2.1 + iy * size
  ((pilCrop img (gridx : Int) (gridy : Int) ((gridx + size : Nat) : Int)
      ((gridy + size : Nat) : Int),
    pilCrop depth (gridx : Int) (gridy : Int) ((gridx + size : Nat) : Int)
      ((gridy + size : Nat) : Int)), p2.2)

/-- `__flip(img, flip)` (lines 291-294). -/
def flip (img : Image) (f : Bool) : Image :=
  if f then pilFlip img else img

/-- `__flip_dual(img, depth, flip)` (lines 297-302): with `flip=None` it
samples `np.random.rand() < 0.5` itself. -/
def flip_dual (img depth : Image) (f : Option Bool) (g : RNG) :
    (Image × Image) × RNG :=
  let fg : Bool × RNG :=
    match f with
    | none =>
      let p := g.takeFloat
      (decide (p.1 < 1/2), p.2)
    | some b => (b, g)
  if fg.1 then ((pilFlip img, pilFlip depth), fg.2) else ((img, depth), fg.2)

/-- Process-wide warning state for `__print_size_warning`. -/
structure WarnState where
  has_printed : Bool
  printed : Nat
deriving DecidableEq, Repr

/-- `__print_size_warning` (lines 305-312): prints the size-adjustment
message only if the `has_printed` attribute is not yet set. -/
def print_size_warning (s : WarnState) : WarnState :=
  if s.has_printed then s else ⟨true, s.printed + 1⟩

/-- `__make_power_2` threaded with the process warning state: the source
body (lines 135-142) resizes without ever calling `__print_size_warning`,
so the warning state is returned unchanged. -/
def make_power_2_run (img : Image) (base : Nat) (s : WarnState) :
    Image × WarnState :=
  (make_power_2 img base, s)

/-- `__grayscale_dual` (lines 316-318): image converted, depth untouched. -/
def grayscale_dual (img depth : Image) : Image × Image := (pilGray img, depth)

/-- `__resize_dual(img, depth, size, method)` (lines 320-323); the size
sequence `[s0, s1]` is (height, width) for `tf.resize`. -/
def resize_dual (img depth : Image) (s0 s1 : Nat) : Image × Image :=
  (torchResize img s0 s1, torchResize depth s0 s1)

/-- `__normalize_dual` (lines 325-330): only the image is normalized. -/
def normalize_dual (img depth : Image) (grayscale : Bool) : Image × Image :=
  (pilNorm img grayscale, depth)

/-- torchvision `RandomCrop.get_params(img, (th, tw))`: raises if the image
is smaller than the crop on an axis, short-circuits to `(0,0)` when the
sizes match exactly, otherwise draws top/left uniformly. -/
def randomCropParams (w h tw th : Nat) (g : RNG) :
    Except PyErr ((Nat × Nat) × RNG) :=
  if h < th ∨ w < tw then
    .error (.valueError "Required crop size is larger than input image size")
  else if w = tw ∧ h = th then .ok ((0, 0), g)
  else
    let pi := npRandint (h - th + 1) g
    let pj := npRandint (w - tw + 1) pi.2
    .ok ((pi.1, pj.1), pj.2)

/-- torchvision `transforms.RandomCrop(size)` applied to one image:
`get_params` then `F.crop(img, i, j, th, tw)`. -/
def randomCropApply (img : Image) (cs : Nat) (g : RNG) :
    Except PyErr (Image × RNG) :=
  match randomCropParams img.width img.height cs cs g with
  | .error e => .error e
  | .ok (ij, g2) =>
    .ok (pilCrop img (ij.2 : Int) (ij.1 : Int) ((ij.2 : Int) + (cs : Int))
      ((ij.1 : Int) + (cs : Int)), g2)

/-- `__random_crop_dual` (lines 332-336): one sampled position, both
rasters cropped with it via `tf.crop`. -/
def random_crop_dual (img depth : Image) (cs : Nat) (g : RNG) :
    Except PyErr ((Image × Image) × RNG) :=
  match randomCropParams img.width img.height cs cs g with
  | .error e => .error e
  | .ok (ij, g2) =>
    .ok ((pilCrop img (ij.2 : Int) (ij.1 : Int) ((ij.2 : Int) + (cs : Int))
        ((ij.1 : Int) + (cs : Int)),
      pilCrop depth (ij.2 : Int) (ij.1 : Int) ((ij.2 : Int) + (cs : Int))
        ((ij.1 : Int) + (cs : Int))), g2)

/-- `__tensor_dual` (lines 338-339). -/
def tensor_dual (img depth : Image) : Image × Image :=
  (pilTensor img, pilTensor depth)

/-! ## The composed single-image pipeline (`get_transform`, lines 83-132)

`get_transform` builds a `transforms.Compose` list and the composed
transform is then applied to an image; the stages below are the successive
`if` blocks of `get_transform`, fused with their application.  The running
state is the current image together with the ambient random source. -/

abbrev TR := Image × RNG

/-- Lines 87-88: `'fixsize' in opt.preprocess` appends
`transforms.Resize(params["size"], method)`; the subscript of `params` is
a TypeError when `params is None` and a KeyError when the key is absent. -/
def st_fixsize (opt : Opt) (params : Option ParamRecord) (s : TR) :
    Except PyErr TR :=
  if containsSub opt.preprocess "fixsize" then
    match params with
    | none => .error (.typeError "NoneType object is not subscriptable")
    | some p =>
      match p.size with
      | none => .error (.keyError "size")
      | some sz => .ok (torchResize s.1 sz.1 sz.2, s.2)
  else .ok s

/-- Lines 89-97: the `resize` / `scale_width` / `scale_shortside`
if/elif block.  For `resize`, `osize = [load_size, load_size]` and the
first element is halved when `"gta2cityscapes" in opt.dataroot`. -/
def st_resizeblock (opt : Opt) (s : TR) : Except PyErr TR :=
  if containsSub opt.preprocess "resize" then
    let o0 := if containsSub opt.dataroot "gta2cityscapes" then
      opt.load_size / 2 else opt.load_size
    .ok (torchResize s.1 o0 opt.load_size, s.2)
  else if containsSub opt.preprocess "scale_width" then
    .ok (scale_width s.1 opt.load_size opt.crop_size, s.2)
  else if containsSub opt.preprocess "scale_shortside" then
    .ok (scale_shortside s.1 opt.load_size opt.crop_size, s.2)
  else .ok s

/-- Lines 99-103: the `zoom` block. -/
def st_zoom (opt : Opt) (params : Option ParamRecord) (s : TR) :
    Except PyErr TR :=
  if containsSub opt.preprocess "zoom" then
    match params with
    | none => .ok (random_zoom s.1 opt.load_size opt.crop_size none s.2)
    | some p =>
      match p.scale_factor with
      | none => .error (.keyError "scale_factor")
      | some fac => .ok (random_zoom s.1 opt.load_size opt.crop_size (some fac) s.2)
  else .ok s

/-- Lines 105-109: the `crop` block; falls back to `RandomCrop` when
`params is None or 'crop_pos' not in params`. -/
def st_crop (opt : Opt) (params : Option ParamRecord) (s : TR) :
    Except PyErr TR :=
  if containsSub opt.preprocess "crop" then
    match params with
    | none => randomCropApply s.1 opt.crop_size s.2
    | some p =>
      match p.crop_pos with
      | none => randomCropApply s.1 opt.crop_size s.2
      | some pos => .ok (crop s.1 pos opt.crop_size, s.2)
  else .ok s

/-- Lines 111-112: the `patch` block; `params['patch_index']` is accessed
unconditionally. -/
def st_patch (opt : Opt) (params : Option ParamRecord) (s : TR) :
    Except PyErr TR :=
  if containsSub opt.preprocess "patch" then
    match params with
    | none => .error (.typeError "NoneType object is not subscriptable")
    | some p =>
      match p.patch_index with
      | none => .error (.keyError "patch_index")
      | some idx => .ok (patch s.1 idx opt.crop_size s.2)
  else .ok s

/-- Lines 114-115: the `trim` block. -/
def st_trim (opt : Opt) (s : TR) : Except PyErr TR :=
  if containsSub opt.preprocess "trim" then .ok (trim s.1 opt.crop_size s.2)
  else .ok s

/-- Line 118: `__make_power_2(img, base=4, method)` is always appended. -/
def st_power (s : TR) : Except PyErr TR := .ok (make_power_2 s.1 4, s.2)

/-- Lines 120-124: the flip block; `RandomHorizontalFlip` flips when
`torch.rand(1) < 0.5`. -/
def st_flip (opt : Opt) (params : Option ParamRecord) (s : TR) :
    Except PyErr TR :=
  if opt.no_flip then .ok s
  else
    match params with
    | none =>
      let p := s.2.takeFloat
      .ok (if p.1 < 1/2 then pilFlip s.1 else s.1, p.2)
    | some pr =>
      match pr.flip with
      | none =>
        let p := s.2.takeFloat
        .ok (if p.1 < 1/2 then pilFlip s.1 else s.1, p.2)
      | some b => .ok (flip s.1 b, s.2)

/-- Lines 126-131: `ToTensor` then `Normalize` when `convert`. -/
def st_convert (grayscale convert : Bool) (s : TR) : TR :=
  if convert then (pilNorm (pilTensor s.1) grayscale, s.2) else s

/-- The composed `get_transform(opt, params, grayscale, method, convert)`
pipeline as a function from the stage state. -/
def pipeline1 (opt : Opt) (params : Option ParamRecord)
    (grayscale convert : Bool) : TR → Except PyErr TR :=
  fun s =>
    st_fixsize opt params s >>= fun s =>
    st_resizeblock opt s >>= fun s =>
    st_zoom opt params s >>= fun s =>
    st_crop opt params s >>= fun s =>
    st_patch opt params s >>= fun s =>
    st_trim opt s >>= fun s =>
    st_power s >>= fun s =>
    st_flip opt params s >>= fun s =>
    pure (st_convert grayscale convert s)

/-- `get_transform(opt, params, grayscale, method, convert)` applied to an
image: line 86 prepends `Grayscale(1)` when `grayscale`, then the fused
stage sequence runs. -/
def get_transform_apply (opt : Opt) (params : Option ParamRecord)
    (grayscale convert : Bool) (img : Image) (g : RNG) : Except PyErr TR :=
  pipeline1 opt params grayscale convert
    (if grayscale then pilGray img else img, g)

/-! ## The dual-image pipeline (`dual_transform`, lines 342-388) -/

abbrev DR := (Image × Image) × RNG

/-- `a, b = r` for the scale helpers' return value: unpacking a bare PIL
image raises a TypeError. -/
def unpackDR (r : DualRet) (g : RNG) : Except PyErr DR :=
  match r with
  | .pair a b => .ok ((a, b), g)
  | .single _ => .error (.typeError "cannot unpack non-sequence Image")

/-- Lines 345-346. -/
def ds_fixsize (opt : Opt) (params : Option ParamRecord) (s : DR) :
    Except PyErr DR :=
  if containsSub opt.preprocess "fixsize" then
    match params with
    | none => .error (.typeError "NoneType object is not subscriptable")
    | some p =>
      match p.size with
      | none => .error (.keyError "size")
      | some sz => .ok (resize_dual s.1.1 s.1.2 sz.1 sz.2, s.2)
  else .ok s

/-- Lines 347-355: the dual `resize` / `scale_width` / `scale_shortside`
if/elif block, unpacking the helpers' return values. -/
def ds_resizeblock (opt : Opt) (s : DR) : Except PyErr DR :=
  if containsSub opt.preprocess "resize" then
    let o0 := if containsSub opt.dataroot "gta2cityscapes" then
      opt.load_size / 2 else opt.load_size
    .ok (resize_dual s.1.1 s.1.2 o0 opt.load_size, s.2)
  else if containsSub opt.preprocess "scale_width" then
    unpackDR (scale_width_dual s.1.1 s.1.2 opt.load_size opt.crop_size) s.2
  else if containsSub opt.preprocess "scale_shortside" then
    unpackDR (scale_shortside_dual s.1.1 s.1.2 opt.load_size opt.crop_size) s.2
  else .ok s

/-- Lines 357-361. -/
def ds_zoom (opt : Opt) (params : Option ParamRecord) (s : DR) :
    Except PyErr DR :=
  if containsSub opt.preprocess "zoom" then
    match params with
    | none => .ok (random_zoom_dual s.1.1 s.1.2 opt.load_size opt.crop_size none s.2)
    | some p =>
      match p.scale_factor with
      | none => .error (.keyError "scale_factor")
      | some fac =>
        .ok (random_zoom_dual s.1.1 s.1.2 opt.load_size opt.crop_size (some fac) s.2)
  else .ok s

/-- Lines 363-367. -/
def ds_crop (opt : Opt) (params : Option ParamRecord) (s : DR) :
    Except PyErr DR :=
  if containsSub opt.preprocess "crop" then
    match params with
    | none => random_crop_dual s.1.1 s.1.2 opt.crop_size s.2
    | some p =>
      match p.crop_pos with
      | none => random_crop_dual s.1.1 s.1.2 opt.crop_size s.2
      | some pos => .ok (crop_dual s.1.1 s.1.2 pos opt.crop_size, s.2)
  else .ok s

/-- Lines 369-370. -/
def ds_patch (opt : Opt) (params : Option ParamRecord) (s : DR) :
    Except PyErr DR :=
  if containsSub opt.preprocess "patch" then
    match params with
    | none => .error (.typeError "NoneType object is not subscriptable")
    | some p =>
      match p.patch_index with
      | none => .error (.keyError "patch_index")
      | some idx => .ok (patch_dual s.1.1 s.1.2 idx opt.crop_size s.2)
  else .ok s

/-- Lines 372-373. -/
def ds_trim (opt : Opt) (s : DR) : Except PyErr DR :=
  if containsSub opt.preprocess "trim" then
    .ok (trim_dual s.1.1 s.1.2 opt.crop_size s.2)
  else .ok s

/-- Line 376. -/
def ds_power (s : DR) : Except PyErr DR :=
  .ok (make_power_2_dual s.1.1 s.1.2 4, s.2)

/-- Lines 378-382. -/
def ds_flip (opt : Opt) (params : Option ParamRecord) (s : DR) :
    Except PyErr DR :=
  if opt.no_flip then .ok s
  else
    match params with
    | none => .ok (flip_dual s.1.1 s.1.2 none s.2)
    | some p =>
      match p.flip with
      | none => .ok (flip_dual s.1.1 s.1.2 none s.2)
      | some b => .ok (flip_dual s.1.1 s.1.2 (some b) s.2)

/-- Lines 384-386. -/
def ds_convert (grayscale convert : Bool) (s : DR) : DR :=
  if convert then
    let t := tensor_dual s.1.1 s.1.2
    (normalize_dual t.1 t.2 grayscale, s.2)
  else s

/-- The fused `dual_transform` stage sequence from the stage state. -/
def pipelineD (opt : Opt) (params : Option ParamRecord)
    (grayscale convert : Bool) : DR → Except PyErr DR :=
  fun s =>
    ds_fixsize opt params s >>= fun s =>
    ds_resizeblock opt s >>= fun s =>
    ds_zoom opt params s >>= fun s =>
    ds_crop opt params s >>= fun s =>
    ds_patch opt params s >>= fun s =>
    ds_trim opt s >>= fun s =>
    ds_power s >>= fun s =>
    ds_flip opt params s >>= fun s =>
    pure (ds_convert grayscale convert s)

/-- `dual_transform(img, depth, opt, params, grayscale, method, convert)`
(lines 342-388): lines 343-344 apply `__grayscale_dual` when `grayscale`,
then the fused stage sequence runs. -/
def dual_transform (img depth : Image) (opt : Opt)
    (params : Option ParamRecord) (grayscale convert : Bool) (g : RNG) :
    Except PyErr DR :=
  pipelineD opt params grayscale convert
    (if grayscale then grayscale_dual img depth else (img, depth), g)

/-- The image component of a successful single-path run. -/
def okImage (e : Except PyErr TR) : Option Image :=
  match e with
  | .ok s => some s.1
  | .error _ => none

/-! ## Helper lemmas -/

/-- Zeta-expanded form of `__make_power_2`. -/
theorem make_power_2_eq (i : Image) (base : Nat) :
    make_power_2 i base =
      if (pyRound ((i.height : ℚ) / ((base : Nat) : ℚ)) * ((base : Nat) : Int)).toNat = i.height ∧
         (pyRound ((i.width : ℚ) / ((base : Nat) : ℚ)) * ((base : Nat) : Int)).toNat = i.width
      then i
      else pilResize i (pyRound ((i.width : ℚ) / ((base : Nat) : ℚ)) * ((base : Nat) : Int)).toNat
             (pyRound ((i.height : ℚ) / ((base : Nat) : ℚ)) * ((base : Nat) : Int)).toNat := rfl

/-- Zeta-expanded form of `__make_power_2_dual`. -/
theorem make_power_2_dual_eq (i d : Image) (base : Nat) :
    make_power_2_dual i d base =
      if (pyRound ((i.height : ℚ) / ((base : Nat) : ℚ)) * ((base : Nat) : Int)).toNat = i.height ∧
         (pyRound ((i.width : ℚ) / ((base : Nat) : ℚ)) * ((base : Nat) : Int)).toNat = i.width
      then (i, d)
      else (pilResize i (pyRound ((i.width : ℚ) / ((base : Nat) : ℚ)) * ((base : Nat) : Int)).toNat
             (pyRound ((i.height : ℚ) / ((base : Nat) : ℚ)) * ((base : Nat) : Int)).toNat,
            pilResize d (pyRound ((i.width : ℚ) / ((base : Nat) : ℚ)) * ((base : Nat) : Int)).toNat
             (pyRound ((i.height : ℚ) / ((base : Nat) : ℚ)) * ((base : Nat) : Int)).toNat) := rfl

theorem pyRound_intCast (n : Int) : pyRound ((n : ℚ)) = n := by
  unfold pyRound
  rw [Int.floor_intCast]
  norm_num

theorem pyRound_nonneg {q : ℚ} (hq : 0 ≤ q) : 0 ≤ pyRound q := by
  have hf : (0 : Int) ≤ ⌊q⌋ := Int.floor_nonneg.mpr hq
  unfold pyRound
  split
  · exact hf
  · split
    · omega
    · split
      · exact hf
      · omega

/-- A size already a multiple of 4 on both axes is left unchanged by
`__make_power_2` (the no-op branch). -/
theorem make_power_2_noop (i : Image) (hw : 4 ∣ i.width) (hh : 4 ∣ i.height) :
    make_power_2 i 4 = i := by
  obtain ⟨kw, hkw⟩ := hw
  obtain ⟨kh, hkh⟩ := hh
  rw [make_power_2_eq]
  have ew : ((i.width : ℚ) / ((4 : Nat) : ℚ)) = ((kw : Int) : ℚ) := by
    rw [hkw]; push_cast; ring
  have eh : ((i.height : ℚ) / ((4 : Nat) : ℚ)) = ((kh : Int) : ℚ) := by
    rw [hkh]; push_cast; ring
  rw [ew, eh, pyRound_intCast, pyRound_intCast, if_pos]
  constructor <;> omega

/-- The dual no-op branch, under the same divisibility condition. -/
theorem make_power_2_dual_noop (i d : Image) (hw : 4 ∣ i.width)
    (hh : 4 ∣ i.height) : make_power_2_dual i d 4 = (i, d) := by
  obtain ⟨kw, hkw⟩ := hw
  obtain ⟨kh, hkh⟩ := hh
  rw [make_power_2_dual_eq]
  have ew : ((i.width : ℚ) / ((4 : Nat) : ℚ)) = ((kw : Int) : ℚ) := by
    rw [hkw]; push_cast; ring
  have eh : ((i.height : ℚ) / ((4 : Nat) : ℚ)) = ((kh : Int) : ℚ) := by
    rw [hkh]; push_cast; ring
  rw [ew, eh, pyRound_intCast, pyRound_intCast, if_pos]
  constructor <;> omega

/-- Both output dimensions of `__make_power_2` with base 4 are multiples
of 4. -/
theorem make_power_2_dvd (i : Image) :
    4 ∣ (make_power_2 i 4).width ∧ 4 ∣ (make_power_2 i 4).height := by
  rw [make_power_2_eq]
  have hw := pyRound_nonneg (q := (i.width : ℚ) / ((4 : Nat) : ℚ))
    (by positivity)
  have hh := pyRound_nonneg (q := (i.height : ℚ) / ((4 : Nat) : ℚ))
    (by positivity)
  split
  · next hc => exact ⟨by omega, by omega⟩
  · exact ⟨by simp [pilResize]; omega, by simp [pilResize]; omega⟩

/-- An image whose width is not a multiple of 4 is genuinely changed by
`__make_power_2` (a non-trivial resize happens). -/
theorem make_power_2_ne (i : Image) (h : ¬ 4 ∣ i.width) :
    make_power_2 i 4 ≠ i := by
  rw [make_power_2_eq]
  have hw := pyRound_nonneg (q := (i.width : ℚ) / ((4 : Nat) : ℚ))
    (by positivity)
  split
  · next hc =>
    exact absurd ⟨(pyRound ((i.width : ℚ) / ((4 : Nat) : ℚ))).toNat,
      by have h2 := hc.2; omega⟩ h
  · intro he
    have h2 := congrArg Image.ops he
    simp [pilResize] at h2

/-- C6: the power-of-4 rounding step is idempotent: applying
`__make_power_2` with base 4 twice returns the very same image (including
its pixel content) as applying it once, because the second application
always hits the unchanged-size branch. -/
theorem make_power_2_idempotent (img : Image) :
    make_power_2 (make_power_2 img 4) 4 = make_power_2 img 4 :=
  make_power_2_noop _ (make_power_2_dvd img).1 (make_power_2_dvd img).2

/-- C2 counterexample: two successive power-of-4 calls that both perform a
non-trivial resize leave the process warning counter at 0 — the message
is emitted zero times, not exactly once, because `__make_power_2` never
calls `__print_size_warning`. -/
theorem warning_never_emitted_counterexample :
    (make_power_2_run ⟨101, 103, []⟩ 4 ⟨false, 0⟩).1 ≠ ⟨101, 103, []⟩ ∧
    (make_power_2_run ⟨51, 50, []⟩ 4
      (make_power_2_run ⟨101, 103, []⟩ 4 ⟨false, 0⟩).2).1 ≠ ⟨51, 50, []⟩ ∧
    (make_power_2_run ⟨51, 50, []⟩ 4
      (make_power_2_run ⟨101, 103, []⟩ 4 ⟨false, 0⟩).2).2.printed = 0 ∧
    (make_power_2_run ⟨51, 50, []⟩ 4
      (make_power_2_run ⟨101, 103, []⟩ 4 ⟨false, 0⟩).2).2.printed ≠ 1 :=
  ⟨make_power_2_ne _ (by decide), make_power_2_ne _ (by decide), rfl, by decide⟩

/-- C2 (amended): no warning is ever emitted by the power-of-4 step — any
sequence of `__make_power_2` calls leaves the process warning state
untouched, because its body never calls `__print_size_warning`; the
`__print_size_warning` helper itself, were it called, would print exactly
once per process no matter how often it is invoked. -/
theorem warning_dead_code (imgs : List Image) (s : WarnState) (n : Nat) :
    imgs.foldl (fun st i => (make_power_2_run i 4 st).2) s = s ∧
    print_size_warning^[n + 1] ⟨false, 0⟩ = ⟨true, 1⟩ := by
  constructor
  · induction imgs generalizing s with
    | nil => rfl
    | cons a t ih => exact ih s
  · induction n with
    | zero => decide
    | succ m ih => rw [Function.iterate_succ_apply', ih]; decide

/-- C3: the dual path crashes in the scale-width and scale-shortside
no-op branches: the source returns a bare image there instead of an
(image, depth) pair, so `dual_transform` raises a TypeError on unpacking
and never returns an aligned pair. -/
theorem dual_noop_unpack_failure :
    scale_width_dual ⟨200, 300, []⟩ ⟨200, 300, []⟩ 200 180 =
      DualRet.single ⟨200, 300, []⟩ ∧
    dual_transform ⟨200, 300, []⟩ ⟨200, 300, []⟩ ⟨"scale_width", 200, 180, true, ""⟩
      none false false ⟨[], []⟩ =
      .error (.typeError "cannot unpack non-sequence Image") ∧
    scale_shortside_dual ⟨300, 200, []⟩ ⟨300, 200, []⟩ 100 64 =
      DualRet.single ⟨300, 200, []⟩ ∧
    dual_transform ⟨300, 200, []⟩ ⟨300, 200, []⟩ ⟨"scale_shortside", 100, 64, true, ""⟩
      none false false ⟨[], []⟩ =
      .error (.typeError "cannot unpack non-sequence Image") :=
  ⟨rfl, rfl, rfl, rfl⟩

/-- C1 counterexample: with `preprocess="resize"`, `load_size=256` and a
`dataroot` containing `"gta2cityscapes"`, both pipelines resize to width
256 and height 128 — not width 128 and height 256 as claimed — because
torchvision's `Resize([a, b])` treats the halved first element as the
height. -/
theorem resize_gta_first_dim_counterexample :
    Except.map (fun s => (s.1.width, s.1.height))
      (get_transform_apply ⟨"resize", 256, 224, true, "gta2cityscapes"⟩ none
        false false ⟨300, 200, []⟩ ⟨[], []⟩) = .ok (256, 128) ∧
    Except.map (fun s => ((s.1.1.width, s.1.1.height), (s.1.2.width, s.1.2.height)))
      (dual_transform ⟨300, 200, []⟩ ⟨300, 200, []⟩
        ⟨"resize", 256, 224, true, "gta2cityscapes"⟩ none false false ⟨[], []⟩) =
      .ok ((256, 128), (256, 128)) ∧
    ((256, 128) : Nat × Nat) ≠ (128, 256) := by
  have e1 : containsSub "resize" "fixsize" = false := by decide
  have e2 : containsSub "resize" "resize" = true := by decide
  have e3 : containsSub "gta2cityscapes" "gta2cityscapes" = true := by decide
  have e4 : containsSub "resize" "zoom" = false := by decide
  have e5 : containsSub "resize" "crop" = false := by decide
  have e6 : containsSub "resize" "patch" = false := by decide
  have e7 : containsSub "resize" "trim" = false := by decide
  have hnoop : make_power_2 ⟨256, 128, [GOp.resizeTo 256 128]⟩ 4 =
      ⟨256, 128, [GOp.resizeTo 256 128]⟩ :=
    make_power_2_noop _ (by decide) (by decide)
  have hnoopD : make_power_2_dual ⟨256, 128, [GOp.resizeTo 256 128]⟩
      ⟨256, 128, [GOp.resizeTo 256 128]⟩ 4 =
      (⟨256, 128, [GOp.resizeTo 256 128]⟩, ⟨256, 128, [GOp.resizeTo 256 128]⟩) :=
    make_power_2_dual_noop _ _ (by decide) (by decide)
  refine ⟨?_, ?_, by decide⟩ <;>
    simp [get_transform_apply, pipeline1, st_fixsize, st_resizeblock, st_zoom,
      st_crop, st_patch, st_trim, st_power, st_flip, st_convert,
      dual_transform, pipelineD, ds_fixsize, ds_resizeblock, ds_zoom, ds_crop,
      ds_patch, ds_trim, ds_power, ds_flip, ds_convert, resize_dual,
      e1, e2, e3, e4, e5, e6, e7, torchResize, pilResize, hnoop, hnoopD,
      Except.map, Bind.bind, Except.bind, pure, Except.pure]

/-- C1 (amended): when `"resize"` is in `preprocess` and `dataroot`
contains `"gta2cityscapes"`, the resize step of both paths halves the
first element of the size list, which torchvision interprets as the
height: the output has width `load_size` and height `load_size / 2`
(so `256 × 128` for `load_size = 256`). -/
theorem resize_gta_halves_height (opt : Opt) (img depth : Image) (g : RNG)
    (hres : containsSub opt.preprocess "resize" = true)
    (hgta : containsSub opt.dataroot "gta2cityscapes" = true) :
    st_resizeblock opt (img, g) =
      .ok (torchResize img (opt.load_size / 2) opt.load_size, g) ∧
    (torchResize img (opt.load_size / 2) opt.load_size).width = opt.load_size ∧
    (torchResize img (opt.load_size / 2) opt.load_size).height = opt.load_size / 2 ∧
    ds_resizeblock opt ((img, depth), g) =
      .ok (resize_dual img depth (opt.load_size / 2) opt.load_size, g) ∧
    (resize_dual img depth (opt.load_size / 2) opt.load_size).1.width = opt.load_size ∧
    (resize_dual img depth (opt.load_size / 2) opt.load_size).1.height = opt.load_size / 2 ∧
    (resize_dual img depth (opt.load_size / 2) opt.load_size).2.width = opt.load_size ∧
    (resize_dual img depth (opt.load_size / 2) opt.load_size).2.height = opt.load_size / 2 := by
  refine ⟨?_, rfl, rfl, ?_, rfl, rfl, rfl, rfl⟩ <;>
    simp [st_resizeblock, ds_resizeblock, hres, hgta]

/-- C1 witness: the amended statement at `load_size = 256` on a concrete
`300 × 200` image. -/
theorem resize_gta_halves_height_witness :
    (torchResize ⟨300, 200, []⟩ (256 / 2) 256).width = 256 ∧
    (torchResize ⟨300, 200, []⟩ (256 / 2) 256).height = 256 / 2 := by
  have h := resize_gta_halves_height ⟨"resize", 256, 224, true, "gta2cityscapes"⟩
    ⟨300, 200, []⟩ ⟨300, 200, []⟩ ⟨[], []⟩ (by decide) (by decide)
  exact ⟨h.2.1, h.2.2.1⟩

/-- C8: `__crop` returns the input unchanged exactly when both axes are
already at most `crop_size`; when either axis exceeds it, it crops a
`crop_size × crop_size` window at the supplied position; `__crop_dual`
has the same no-op condition. -/
theorem crop_noop_iff (img depth : Image) (pos : Int × Int) (s : Nat) :
    (crop img pos s = img ↔ img.width ≤ s ∧ img.height ≤ s) ∧
    (s < img.width ∨ s < img.height →
      crop img pos s = pilCrop img pos.1 pos.2 (pos.1 + (s : Int)) (pos.2 + (s : Int)) ∧
      (crop img pos s).width = s ∧ (crop img pos s).height = s) ∧
    (crop_dual img depth pos s = (img, depth) ↔
      img.width ≤ s ∧ img.height ≤ s) := by
  have crop_e : crop img pos s =
      if s < img.width ∨ s < img.height then
        pilCrop img pos.1 pos.2 (pos.1 + (s : Int)) (pos.2 + (s : Int))
      else img := rfl
  have cropd_e : crop_dual img depth pos s =
      if s < img.width ∨ s < img.height then
        (pilCrop img pos.1 pos.2 (pos.1 + (s : Int)) (pos.2 + (s : Int)),
         pilCrop depth pos.1 pos.2 (pos.1 + (s : Int)) (pos.2 + (s : Int)))
      else (img, depth) := rfl
  by_cases hc : s < img.width ∨ s < img.height
  · have hne : pilCrop img pos.1 pos.2 (pos.1 + (s : Int)) (pos.2 + (s : Int)) ≠ img := by
      intro he
      have h2 := congrArg Image.ops he
      simp [pilCrop] at h2
    rw [crop_e, cropd_e, if_pos hc, if_pos hc]
    refine ⟨?_, fun _ => ⟨rfl, ?_, ?_⟩, ?_⟩
    · exact ⟨fun he => absurd he hne, fun hle => by omega⟩
    · simp only [pilCrop]
      omega
    · simp only [pilCrop]
      omega
    · exact ⟨fun he => absurd (congrArg Prod.fst he) hne, fun hle => by omega⟩
  · rw [crop_e, cropd_e, if_neg hc, if_neg hc]
    refine ⟨?_, fun h => absurd h hc, ?_⟩
    · exact ⟨fun _ => by omega, fun _ => rfl⟩
    · exact ⟨fun _ => by omega, fun _ => rfl⟩

/-- Stages whose keyword is absent from `preprocess` are identities. -/
theorem st_fixsize_off {opt : Opt} {params : Option ParamRecord}
    (h : containsSub opt.preprocess "fixsize" = false) (s : TR) :
    st_fixsize opt params s = .ok s := by
  simp [st_fixsize, h]

theorem st_resizeblock_off {opt : Opt}
    (h2 : containsSub opt.preprocess "resize" = false)
    (h3 : containsSub opt.preprocess "scale_width" = false)
    (h4 : containsSub opt.preprocess "scale_shortside" = false) (s : TR) :
    st_resizeblock opt s = .ok s := by
  simp [st_resizeblock, h2, h3, h4]

theorem st_zoom_off {opt : Opt} {params : Option ParamRecord}
    (h : containsSub opt.preprocess "zoom" = false) (s : TR) :
    st_zoom opt params s = .ok s := by
  simp [st_zoom, h]

theorem st_crop_off {opt : Opt} {params : Option ParamRecord}
    (h : containsSub opt.preprocess "crop" = false) (s : TR) :
    st_crop opt params s = .ok s := by
  simp [st_crop, h]

theorem st_patch_off {opt : Opt} {params : Option ParamRecord}
    (h : containsSub opt.preprocess "patch" = false) (s : TR) :
    st_patch opt params s = .ok s := by
  simp [st_patch, h]

theorem st_trim_off {opt : Opt}
    (h : containsSub opt.preprocess "trim" = false) (s : TR) :
    st_trim opt s = .ok s := by
  simp [st_trim, h]

theorem make_power_2_width (i : Image) :
    (make_power_2 i 4).width =
      (pyRound ((i.width : ℚ) / ((4 : Nat) : ℚ)) * ((4 : Nat) : Int)).toNat := by
  rw [make_power_2_eq]
  split
  · next hc => exact hc.2.symm
  · rfl

theorem make_power_2_height (i : Image) :
    (make_power_2 i 4).height =
      (pyRound ((i.height : ℚ) / ((4 : Nat) : ℚ)) * ((4 : Nat) : Int)).toNat := by
  rw [make_power_2_eq]
  split
  · next hc => exact hc.1.symm
  · rfl

/-- The flip stage always succeeds and never changes the spatial size. -/
theorem st_flip_size (opt : Opt) (params : Option ParamRecord) (i : Image)
    (g : RNG) :
    ∃ j g2, st_flip opt params (i, g) = .ok (j, g2) ∧
      j.width = i.width ∧ j.height = i.height := by
  unfold st_flip
  by_cases hnf : opt.no_flip
  · exact ⟨i, g, by simp [hnf], rfl, rfl⟩
  · simp only [hnf, Bool.false_eq_true, if_false]
    cases params with
    | none => refine ⟨_, _, rfl, ?_, ?_⟩ <;> split <;> simp
    | some pr =>
      cases hf : pr.flip with
      | none =>
        simp only [hf]
        refine ⟨_, _, rfl, ?_, ?_⟩ <;> split <;> simp
      | some b =>
        simp only [hf]
        refine ⟨_, _, rfl, ?_, ?_⟩ <;> simp only [flip] <;> split <;> simp

theorem st_convert_fst_width (gs cv : Bool) (s : TR) :
    (st_convert gs cv s).1.width = s.1.width := by
  unfold st_convert
  split <;> simp

theorem st_convert_fst_height (gs cv : Bool) (s : TR) :
    (st_convert gs cv s).1.height = s.1.height := by
  unfold st_convert
  split <;> simp

/-- C5: when `preprocess` contains none of the geometric keywords, the
pipeline always succeeds, and the output spatial size is exactly the
power-of-4 rounding `(round(w/4)*4, round(h/4)*4)` of the input size —
the optional flip and tensor conversion leave the dimensions unchanged. -/
theorem none_preprocess_power4_size (opt : Opt) (params : Option ParamRecord)
    (img : Image) (g : RNG) (gs cv : Bool)
    (h1 : containsSub opt.preprocess "fixsize" = false)
    (h2 : containsSub opt.preprocess "resize" = false)
    (h3 : containsSub opt.preprocess "scale_width" = false)
    (h4 : containsSub opt.preprocess "scale_shortside" = false)
    (h5 : containsSub opt.preprocess "zoom" = false)
    (h6 : containsSub opt.preprocess "crop" = false)
    (h7 : containsSub opt.preprocess "patch" = false)
    (h8 : containsSub opt.preprocess "trim" = false) :
    ∃ j g2, get_transform_apply opt params gs cv img g = .ok (j, g2) ∧
      j.width = (pyRound ((img.width : ℚ) / ((4 : Nat) : ℚ)) * ((4 : Nat) : Int)).toNat ∧
      j.height = (pyRound ((img.height : ℚ) / ((4 : Nat) : ℚ)) * ((4 : Nat) : Int)).toNat := by
  unfold get_transform_apply pipeline1
  set i0 := if gs then pilGray img else img with hi0
  have hi0w : i0.width = img.width := by rw [hi0]; split <;> simp
  have hi0h : i0.height = img.height := by rw [hi0]; split <;> simp
  obtain ⟨j, g2, hst, hw, hh⟩ := st_flip_size opt params (make_power_2 i0 4) g
  simp only [st_fixsize_off h1, st_resizeblock_off h2 h3 h4, st_zoom_off h5,
    st_crop_off h6, st_patch_off h7, st_trim_off h8, st_power,
    Bind.bind, Except.bind, hst, pure, Except.pure]
  refine ⟨(st_convert gs cv (j, g2)).1, (st_convert gs cv (j, g2)).2,
    by rfl, ?_, ?_⟩
  · rw [st_convert_fst_width]
    show j.width = _
    rw [hw, make_power_2_width, hi0w]
  · rw [st_convert_fst_height]
    show j.height = _
    rw [hh, make_power_2_height, hi0h]

/-- C5 witness: `preprocess="none"` on a `101 × 103` image gives a
`100 × 104` output. -/
theorem none_preprocess_power4_size_witness :
    ∃ j g2, get_transform_apply ⟨"none", 0, 0, false, ""⟩ none false false
      ⟨101, 103, []⟩ ⟨[], [(3 : ℚ)/4]⟩ = .ok (j, g2) ∧
      j.width = 100 ∧ j.height = 104 := by
  obtain ⟨j, g2, heq, hw, hh⟩ := none_preprocess_power4_size
    ⟨"none", 0, 0, false, ""⟩ none ⟨101, 103, []⟩ ⟨[], [(3 : ℚ)/4]⟩ false false
    (by decide) (by decide) (by decide) (by decide) (by decide) (by decide)
    (by decide) (by decide)
  refine ⟨j, g2, heq, ?_, ?_⟩
  · rw [hw]
    norm_num [pyRound]
    decide
  · rw [hh]
    norm_num [pyRound]
    decide

/-- C7: `get_params` computes the effective pre-crop size by the three
preprocess cases, draws each crop coordinate uniformly from the inclusive
range `[0, max 0 (new_dim - crop_size)]` (every value in the range is
attainable), and returns `flip` true exactly when the uniform draw
exceeds 0.5. -/
theorem get_params_spec (opt : Opt) (w h : Nat) (hw : 0 < w)
    (n1 n2 : Nat) (ns : List Nat) (f : ℚ) (fs : List ℚ) :
    ∃ bx bY x y,
      bx = max 0 (((if opt.preprocess = "resize_and_crop" then opt.load_size
          else if opt.preprocess = "scale_width_and_crop" then opt.load_size
          else w : Nat) : Int) - (opt.crop_size : Int)) ∧
      bY = max 0 (((if opt.preprocess = "resize_and_crop" then opt.load_size
          else if opt.preprocess = "scale_width_and_crop" then
            opt.load_size * h / w
          else h : Nat) : Int) - (opt.crop_size : Int)) ∧
      get_params opt (w, h) ⟨n1 :: n2 :: ns, f :: fs⟩ =
        (⟨some (x, y), some (decide ((1 : ℚ)/2 < f)), none, none, none⟩,
          ⟨ns, fs⟩) ∧
      0 ≤ x ∧ x ≤ bx ∧ 0 ≤ y ∧ y ≤ bY ∧
      (∀ t : Int, 0 ≤ t → t ≤ bx →
        ∃ m : Nat, (get_params opt (w, h) ⟨m :: n2 :: ns, f :: fs⟩).1.crop_pos =
          some (t, y)) ∧
      (∀ t : Int, 0 ≤ t → t ≤ bY →
        ∃ m : Nat, (get_params opt (w, h) ⟨n1 :: m :: ns, f :: fs⟩).1.crop_pos =
          some (x, t)) := by
  have hgp : ∀ m1 m2 : Nat, get_params opt (w, h) ⟨m1 :: m2 :: ns, f :: fs⟩ =
      (⟨some
          (0 + (m1 : Int) %
            (max 0 (((if opt.preprocess = "resize_and_crop" then opt.load_size
              else if opt.preprocess = "scale_width_and_crop" then opt.load_size
              else w : Nat) : Int) - (opt.crop_size : Int)) - 0 + 1),
           0 + (m2 : Int) %
            (max 0 (((if opt.preprocess = "resize_and_crop" then opt.load_size
              else if opt.preprocess = "scale_width_and_crop" then
                opt.load_size * h / w
              else h : Nat) : Int) - (opt.crop_size : Int)) - 0 + 1)),
        some (decide ((1 : ℚ)/2 < f)), none, none, none⟩, ⟨ns, fs⟩) := by
    intro m1 m2
    unfold get_params pyRandint RNG.takeInt RNG.takeFloat
    by_cases hA : opt.preprocess = "resize_and_crop"
    · simp [hA]
    · by_cases hB : opt.preprocess = "scale_width_and_crop" <;> simp [hA, hB]
  set bx : Int := max 0 (((if opt.preprocess = "resize_and_crop" then opt.load_size
      else if opt.preprocess = "scale_width_and_crop" then opt.load_size
      else w : Nat) : Int) - (opt.crop_size : Int)) with hbx
  set bY : Int := max 0 (((if opt.preprocess = "resize_and_crop" then opt.load_size
      else if opt.preprocess = "scale_width_and_crop" then opt.load_size * h / w
      else h : Nat) : Int) - (opt.crop_size : Int)) with hbY
  have hbx0 : 0 ≤ bx := le_max_left 0 _
  have hbY0 : 0 ≤ bY := le_max_left 0 _
  have hxpos : (0 : Int) < bx - 0 + 1 := by omega
  have hypos : (0 : Int) < bY - 0 + 1 := by omega
  refine ⟨bx, bY, 0 + (n1 : Int) % (bx - 0 + 1), 0 + (n2 : Int) % (bY - 0 + 1),
    rfl, rfl, hgp n1 n2, ?_, ?_, ?_, ?_, ?_, ?_⟩
  · have := Int.emod_nonneg (n1 : Int) (by omega : bx - 0 + 1 ≠ 0)
    omega
  · have := Int.emod_lt_of_pos (n1 : Int) hxpos
    omega
  · have := Int.emod_nonneg (n2 : Int) (by omega : bY - 0 + 1 ≠ 0)
    omega
  · have := Int.emod_lt_of_pos (n2 : Int) hypos
    omega
  · intro t ht0 htb
    refine ⟨t.toNat, ?_⟩
    rw [hgp t.toNat n2]
    have he : ((t.toNat : Int)) % (bx - 0 + 1) = t := by
      rw [Int.toNat_of_nonneg ht0]
      exact Int.emod_eq_of_lt ht0 (by omega)
    show some (0 + (t.toNat : Int) % (bx - 0 + 1),
        0 + (n2 : Int) % (bY - 0 + 1)) =
      some (t, 0 + (n2 : Int) % (bY - 0 + 1))
    rw [he, zero_add]
  · intro t ht0 htb
    refine ⟨t.toNat, ?_⟩
    rw [hgp n1 t.toNat]
    have he : ((t.toNat : Int)) % (bY - 0 + 1) = t := by
      rw [Int.toNat_of_nonneg ht0]
      exact Int.emod_eq_of_lt ht0 (by omega)
    show some (0 + (n1 : Int) % (bx - 0 + 1),
        0 + (t.toNat : Int) % (bY - 0 + 1)) =
      some (0 + (n1 : Int) % (bx - 0 + 1), t)
    rw [he]
    simp only [zero_add]

/-- C7 witness: `preprocess="resize_and_crop"`, `load_size=256`,
`crop_size=224` on a `300 × 200` image with draws `5, 7`: the crop
position is `(5, 7)`, inside `[0, 32] × [0, 32]`. -/
theorem get_params_spec_witness :
    ∃ x y : Int,
      (get_params ⟨"resize_and_crop", 256, 224, false, ""⟩ (300, 200)
        ⟨[5, 7], [(3 : ℚ)/4]⟩).1.crop_pos = some (x, y) ∧
      0 ≤ x ∧ x ≤ 32 ∧ 0 ≤ y ∧ y ≤ 32 := by
  obtain ⟨bx, bY, x, y, hbx, hbY, heq, hx0, hx1, hy0, hy1, _⟩ :=
    get_params_spec ⟨"resize_and_crop", 256, 224, false, ""⟩ 300 200
      (by norm_num) 5 7 [] ((3 : ℚ)/4) []
  have hbx32 : bx = 32 := by rw [hbx]; decide
  have hbY32 : bY = 32 := by rw [hbY]; decide
  refine ⟨x, y, ?_, hx0, by omega, hy0, by omega⟩
  rw [heq]

/-- C8 witness: a `10 × 5` image with `crop_size = 4` is cropped to a
`4 × 4` window at `(2, 3)`, and a `3 × 4` image is returned unchanged. -/
theorem crop_noop_iff_witness :
    crop ⟨10, 5, []⟩ (2, 3) 4 =
      pilCrop ⟨10, 5, []⟩ 2 3 (2 + (4 : Int)) (3 + (4 : Int)) ∧
    (crop ⟨10, 5, []⟩ (2, 3) 4).width = 4 ∧
    (crop ⟨10, 5, []⟩ (2, 3) 4).height = 4 ∧
    crop ⟨3, 4, []⟩ (0, 0) 4 = ⟨3, 4, []⟩ := by
  have h1 := (crop_noop_iff ⟨10, 5, []⟩ ⟨10, 5, []⟩ (2, 3) 4).2.1 (by decide)
  have h2 := (crop_noop_iff ⟨3, 4, []⟩ ⟨3, 4, []⟩ (0, 0) 4).1.mpr (by decide)
  exact ⟨h1.1, h1.2.1, h1.2.2, h2⟩

/-- C9 counterexample: with `"fixsize"` requested and no ParameterRecord
supplied at all, `get_transform` raises the generic
`TypeError: NoneType object is not subscriptable`, which does not identify
the missing `size` field. -/
theorem fixsize_none_params_error_counterexample :
    get_transform_apply ⟨"fixsize", 256, 224, true, ""⟩ none false false
      ⟨300, 200, []⟩ ⟨[], []⟩ =
      .error (.typeError "NoneType object is not subscriptable") ∧
    identifiesField (.typeError "NoneType object is not subscriptable")
      "size" = false :=
  ⟨rfl, by decide⟩

/-- C9 (amended): when `fixsize` is requested without the needed value
the pipelines raise an error instead of proceeding with defaults — a
KeyError naming the field when a record is supplied without it, but only
a generic TypeError (naming no field) when no record is supplied; the
`patch` stage behaves the same for `patch_index`. -/
theorem missing_param_errors (opt : Opt) (img depth : Image) (g : RNG)
    (gs cv : Bool) (p : ParamRecord)
    (hfix : containsSub opt.preprocess "fixsize" = true)
    (hsz : p.size = none) :
    get_transform_apply opt none gs cv img g =
      .error (.typeError "NoneType object is not subscriptable") ∧
    get_transform_apply opt (some p) gs cv img g = .error (.keyError "size") ∧
    dual_transform img depth opt none gs cv g =
      .error (.typeError "NoneType object is not subscriptable") ∧
    dual_transform img depth opt (some p) gs cv g = .error (.keyError "size") ∧
    identifiesField (.keyError "size") "size" = true ∧
    identifiesField (.typeError "NoneType object is not subscriptable")
      "size" = false ∧
    identifiesField (.typeError "NoneType object is not subscriptable")
      "patch_index" = false ∧
    (∀ (q : Opt) (i : Image) (g2 : RNG),
      containsSub q.preprocess "patch" = true →
      st_patch q none (i, g2) =
        .error (.typeError "NoneType object is not subscriptable")) ∧
    (∀ (q : Opt) (pr : ParamRecord) (i : Image) (g2 : RNG),
      containsSub q.preprocess "patch" = true → pr.patch_index = none →
      st_patch q (some pr) (i, g2) = .error (.keyError "patch_index")) := by
  refine ⟨?_, ?_, ?_, ?_, by decide, by decide, by decide, ?_, ?_⟩
  · simp [get_transform_apply, pipeline1, st_fixsize, hfix,
      Bind.bind, Except.bind]
  · simp [get_transform_apply, pipeline1, st_fixsize, hfix, hsz,
      Bind.bind, Except.bind]
  · simp [dual_transform, pipelineD, ds_fixsize, hfix,
      Bind.bind, Except.bind]
  · simp [dual_transform, pipelineD, ds_fixsize, hfix, hsz,
      Bind.bind, Except.bind]
  · intro q i g2 hp
    simp [st_patch, hp]
  · intro q pr i g2 hp hpi
    simp [st_patch, hp, hpi]

/-- C9 witness: the amended statement at `preprocess="fixsize"` with an
all-`none` record. -/
theorem missing_param_errors_witness :
    get_transform_apply ⟨"fixsize", 256, 224, true, ""⟩
      (some ⟨none, none, none, none, none⟩) false false ⟨300, 200, []⟩
      ⟨[], []⟩ = .error (.keyError "size") ∧
    dual_transform ⟨300, 200, []⟩ ⟨300, 200, []⟩ ⟨"fixsize", 256, 224, true, ""⟩
      none false false ⟨[], []⟩ =
      .error (.typeError "NoneType object is not subscriptable") := by
  have h := missing_param_errors ⟨"fixsize", 256, 224, true, ""⟩
    ⟨300, 200, []⟩ ⟨300, 200, []⟩ ⟨[], []⟩ false false
    ⟨none, none, none, none, none⟩ (by decide) rfl
  exact ⟨h.2.1, h.2.2.1⟩

/-- C10: when `"crop"` is in `preprocess` and the supplied record lacks
`crop_pos` (resp. `no_flip` is false and the record lacks `flip`), both
paths silently behave exactly as if no record had been supplied for that
step — a freshly sampled random crop position (resp. random flip
decision) — instead of raising; the flip stage always succeeds. -/
theorem missing_key_silent_fallback (opt : Opt) (p : ParamRecord)
    (i d : Image) (g : RNG)
    (hcrop : containsSub opt.preprocess "crop" = true)
    (hnf : opt.no_flip = false)
    (hcp : p.crop_pos = none) (hfl : p.flip = none) :
    st_crop opt (some p) (i, g) = st_crop opt none (i, g) ∧
    st_flip opt (some p) (i, g) = st_flip opt none (i, g) ∧
    (∃ j g2, st_flip opt (some p) (i, g) = .ok (j, g2)) ∧
    ds_crop opt (some p) ((i, d), g) = ds_crop opt none ((i, d), g) ∧
    ds_flip opt (some p) ((i, d), g) = ds_flip opt none ((i, d), g) := by
  refine ⟨?_, ?_, ?_, ?_, ?_⟩
  · simp [st_crop, hcrop, hcp]
  · simp [st_flip, hnf, hfl]
  · simp only [st_flip, hnf, Bool.false_eq_true, if_false, hfl]
    exact ⟨_, _, rfl⟩
  · simp [ds_crop, hcrop, hcp]
  · simp [ds_flip, hnf, hfl]

/-- C10 witness: the fallback equalities at a concrete configuration with
`preprocess="crop"`, an all-`none` record and an `8 × 8` image. -/
theorem missing_key_silent_fallback_witness :
    st_crop ⟨"crop", 0, 4, false, ""⟩ (some ⟨none, none, none, none, none⟩)
      (⟨8, 8, []⟩, ⟨[1, 2], [(1 : ℚ)/4]⟩) =
      st_crop ⟨"crop", 0, 4, false, ""⟩ none (⟨8, 8, []⟩, ⟨[1, 2], [(1 : ℚ)/4]⟩) ∧
    st_flip ⟨"crop", 0, 4, false, ""⟩ (some ⟨none, none, none, none, none⟩)
      (⟨8, 8, []⟩, ⟨[1, 2], [(1 : ℚ)/4]⟩) =
      st_flip ⟨"crop", 0, 4, false, ""⟩ none (⟨8, 8, []⟩, ⟨[1, 2], [(1 : ℚ)/4]⟩) := by
  have h := missing_key_silent_fallback ⟨"crop", 0, 4, false, ""⟩
    ⟨none, none, none, none, none⟩ ⟨8, 8, []⟩ ⟨8, 8, []⟩
    ⟨[1, 2], [(1 : ℚ)/4]⟩ (by decide) rfl rfl rfl
  exact ⟨h.1, h.2.1⟩

/-! ## Determinism infrastructure for C4 -/

/-- A stage whose outcome (error, or image component of the result) is
independent of the random source it is given. -/
def rngFreeA {α : Type} (F : α × RNG → Except PyErr (α × RNG)) : Prop :=
  ∀ i g, F (i, g) =
    Except.map (fun j => (j, g)) (Except.map Prod.fst (F (i, ⟨[], []⟩)))

theorem rngFreeA_bind {α : Type} {F G : α × RNG → Except PyErr (α × RNG)}
    (hF : rngFreeA F) (hG : rngFreeA G) :
    rngFreeA (fun s => F s >>= G) := by
  intro i g
  cases hFe : F (i, ⟨[], []⟩) with
  | error e =>
    have h1 := hF i g
    rw [hFe] at h1
    simp only [Except.map] at h1
    show F (i, g) >>= G =
      Except.map (fun j => (j, g)) (Except.map Prod.fst (F (i, ⟨[], []⟩) >>= G))
    rw [h1, hFe]
    simp [Bind.bind, Except.bind, Except.map]
  | ok s =>
    have h0 := hF i ⟨[], []⟩
    have h1 := hF i g
    rw [hFe] at h0 h1
    simp only [Except.map] at h0 h1
    have hs : s = (s.1, ⟨[], []⟩) := by
      exact (Except.ok.injEq _ _).mp h0
    show F (i, g) >>= G =
      Except.map (fun j => (j, g)) (Except.map Prod.fst (F (i, ⟨[], []⟩) >>= G))
    rw [h1, hFe]
    simp only [Bind.bind, Except.bind]
    conv_rhs => rw [hs]
    exact hG s.1 g

theorem rngFreeA_map_fst {α : Type} {F : α × RNG → Except PyErr (α × RNG)}
    (hF : rngFreeA F) (i : α) (g g' : RNG) :
    Except.map Prod.fst (F (i, g)) = Except.map Prod.fst (F (i, g')) := by
  rw [hF i g, hF i g']
  cases F (i, ⟨[], []⟩) <;> simp [Except.map]

theorem unpackDR_rng (R : DualRet) (g : RNG) :
    unpackDR R g =
      Except.map (fun j => (j, g)) (Except.map Prod.fst (unpackDR R ⟨[], []⟩)) := by
  cases R <;> simp [unpackDR, Except.map]

theorem rf_st_fixsize (opt : Opt) (params : Option ParamRecord) :
    rngFreeA (st_fixsize opt params) := by
  intro i g
  unfold st_fixsize
  cases hc : containsSub opt.preprocess "fixsize" with
  | false => simp [hc, Except.map]
  | true =>
    cases params with
    | none => simp [hc, Except.map]
    | some p =>
      cases hs : p.size with
      | none => simp [hc, hs, Except.map]
      | some sz => simp [hc, hs, Except.map]

theorem rf_st_resizeblock (opt : Opt) : rngFreeA (st_resizeblock opt) := by
  intro i g
  unfold st_resizeblock
  cases h1 : containsSub opt.preprocess "resize" <;>
    cases h2 : containsSub opt.preprocess "scale_width" <;>
      cases h3 : containsSub opt.preprocess "scale_shortside" <;>
        simp [h1, h2, h3, Except.map]

theorem rf_st_zoom_some (opt : Opt) (p : ParamRecord) :
    rngFreeA (st_zoom opt (some p)) := by
  intro i g
  unfold st_zoom
  cases hz : containsSub opt.preprocess "zoom" with
  | false => simp [hz, Except.map]
  | true =>
    cases hf : p.scale_factor with
    | none => simp [hz, hf, Except.map]
    | some fac => simp [hz, hf, random_zoom, Except.map]

theorem rf_st_crop_some (opt : Opt) (p : ParamRecord) (pos : Int × Int)
    (hcp : p.crop_pos = some pos) : rngFreeA (st_crop opt (some p)) := by
  intro i g
  unfold st_crop
  cases hc : containsSub opt.preprocess "crop" with
  | false => simp [hc, Except.map]
  | true => simp [hc, hcp, Except.map]

theorem rf_st_patch_off (opt : Opt) (params : Option ParamRecord)
    (h : containsSub opt.preprocess "patch" = false) :
    rngFreeA (st_patch opt params) := by
  intro i g
  simp [st_patch, h, Except.map]

theorem rf_st_trim_off (opt : Opt)
    (h : containsSub opt.preprocess "trim" = false) :
    rngFreeA (st_trim opt) := by
  intro i g
  simp [st_trim, h, Except.map]

theorem rf_st_power : rngFreeA st_power := by
  intro i g
  simp [st_power, Except.map]

theorem rf_st_flip_some (opt : Opt) (p : ParamRecord) (b : Bool)
    (hfl : p.flip = some b) : rngFreeA (st_flip opt (some p)) := by
  intro i g
  unfold st_flip
  cases hnf : opt.no_flip with
  | true => simp [hnf, Except.map]
  | false => simp [hnf, hfl, Except.map]

theorem rf_st_convert (gs cv : Bool) :
    rngFreeA (fun s : TR => pure (st_convert gs cv s)) := by
  intro i g
  cases cv <;> simp [st_convert, pure, Except.pure, Except.map]

theorem rf_pipeline1 (opt : Opt) (p : ParamRecord) (gs cv : Bool)
    (pos : Int × Int) (hcp : p.crop_pos = some pos)
    (b : Bool) (hfl : p.flip = some b)
    (hpatch : containsSub opt.preprocess "patch" = false)
    (htrim : containsSub opt.preprocess "trim" = false) :
    rngFreeA (pipeline1 opt (some p) gs cv) := by
  unfold pipeline1
  exact rngFreeA_bind (rf_st_fixsize opt (some p))
    (rngFreeA_bind (rf_st_resizeblock opt)
      (rngFreeA_bind (rf_st_zoom_some opt p)
        (rngFreeA_bind (rf_st_crop_some opt p pos hcp)
          (rngFreeA_bind (rf_st_patch_off opt (some p) hpatch)
            (rngFreeA_bind (rf_st_trim_off opt htrim)
              (rngFreeA_bind rf_st_power
                (rngFreeA_bind (rf_st_flip_some opt p b hfl)
                  (rf_st_convert gs cv))))))))

theorem rf_ds_fixsize (opt : Opt) (params : Option ParamRecord) :
    rngFreeA (ds_fixsize opt params) := by
  intro i g
  unfold ds_fixsize
  cases hc : containsSub opt.preprocess "fixsize" with
  | false => simp [hc, Except.map]
  | true =>
    cases params with
    | none => simp [hc, Except.map]
    | some p =>
      cases hs : p.size with
      | none => simp [hc, hs, Except.map]
      | some sz => simp [hc, hs, Except.map]

theorem rf_ds_resizeblock (opt : Opt) : rngFreeA (ds_resizeblock opt) := by
  intro i g
  unfold ds_resizeblock
  cases h1 : containsSub opt.preprocess "resize" with
  | true => simp [h1, Except.map]
  | false =>
    cases h2 : containsSub opt.preprocess "scale_width" with
    | true =>
      simp only [h1, h2, Bool.false_eq_true, if_false, if_true]
      exact unpackDR_rng _ g
    | false =>
      cases h3 : containsSub opt.preprocess "scale_shortside" with
      | true =>
        simp only [h1, h2, h3, Bool.false_eq_true, if_false, if_true]
        exact unpackDR_rng _ g
      | false => simp [h1, h2, h3, Except.map]

theorem rf_ds_zoom_some (opt : Opt) (p : ParamRecord) :
    rngFreeA (ds_zoom opt (some p)) := by
  intro i g
  unfold ds_zoom
  cases hz : containsSub opt.preprocess "zoom" with
  | false => simp [hz, Except.map]
  | true =>
    cases hf : p.scale_factor with
    | none => simp [hz, hf, Except.map]
    | some fac => simp [hz, hf, random_zoom_dual, Except.map]

theorem rf_ds_crop_some (opt : Opt) (p : ParamRecord) (pos : Int × Int)
    (hcp : p.crop_pos = some pos) : rngFreeA (ds_crop opt (some p)) := by
  intro i g
  unfold ds_crop
  cases hc : containsSub opt.preprocess "crop" with
  | false => simp [hc, Except.map]
  | true => simp [hc, hcp, Except.map]

theorem rf_ds_patch_off (opt : Opt) (params : Option ParamRecord)
    (h : containsSub opt.preprocess "patch" = false) :
    rngFreeA (ds_patch opt params) := by
  intro i g
  simp [ds_patch, h, Except.map]

theorem rf_ds_trim_off (opt : Opt)
    (h : containsSub opt.preprocess "trim" = false) :
    rngFreeA (ds_trim opt) := by
  intro i g
  simp [ds_trim, h, Except.map]

theorem rf_ds_power : rngFreeA ds_power := by
  intro i g
  simp [ds_power, Except.map]

theorem rf_ds_flip_some (opt : Opt) (p : ParamRecord) (b : Bool)
    (hfl : p.flip = some b) : rngFreeA (ds_flip opt (some p)) := by
  intro i g
  unfold ds_flip
  cases hnf : opt.no_flip with
  | true => simp [hnf, Except.map]
  | false =>
    simp only [hnf, Bool.false_eq_true, if_false, hfl]
    cases b <;> simp [flip_dual, Except.map]

theorem rf_ds_convert (gs cv : Bool) :
    rngFreeA (fun s : DR => pure (ds_convert gs cv s)) := by
  intro i g
  cases cv <;> simp [ds_convert, pure, Except.pure, Except.map]

theorem rf_pipelineD (opt : Opt) (p : ParamRecord) (gs cv : Bool)
    (pos : Int × Int) (hcp : p.crop_pos = some pos)
    (b : Bool) (hfl : p.flip = some b)
    (hpatch : containsSub opt.preprocess "patch" = false)
    (htrim : containsSub opt.preprocess "trim" = false) :
    rngFreeA (pipelineD opt (some p) gs cv) := by
  unfold pipelineD
  exact rngFreeA_bind (rf_ds_fixsize opt (some p))
    (rngFreeA_bind (rf_ds_resizeblock opt)
      (rngFreeA_bind (rf_ds_zoom_some opt p)
        (rngFreeA_bind (rf_ds_crop_some opt p pos hcp)
          (rngFreeA_bind (rf_ds_patch_off opt (some p) hpatch)
            (rngFreeA_bind (rf_ds_trim_off opt htrim)
              (rngFreeA_bind rf_ds_power
                (rngFreeA_bind (rf_ds_flip_some opt p b hfl)
                  (rf_ds_convert gs cv))))))))

/-- C4 counterexample: with `"trim"` in `preprocess`, a full
ParameterRecord (all sampled values present) and identical inputs, two
invocations with different ambient random states produce different
outputs — `__trim` samples its window internally, so the pipeline is not
deterministic as claimed. -/
theorem trim_nondeterminism_counterexample :
    okImage (get_transform_apply ⟨"trim", 8, 4, true, ""⟩
      (some ⟨some (0, 0), some false, some (1, 1), some 0, some (8, 4)⟩)
      false false ⟨8, 4, []⟩ ⟨[0], []⟩) ≠
    okImage (get_transform_apply ⟨"trim", 8, 4, true, ""⟩
      (some ⟨some (0, 0), some false, some (1, 1), some 0, some (8, 4)⟩)
      false false ⟨8, 4, []⟩ ⟨[1], []⟩) := by
  have e1 : containsSub "trim" "fixsize" = false := by decide
  have e2 : containsSub "trim" "resize" = false := by decide
  have e3 : containsSub "trim" "scale_width" = false := by decide
  have e4 : containsSub "trim" "scale_shortside" = false := by decide
  have e5 : containsSub "trim" "zoom" = false := by decide
  have e6 : containsSub "trim" "crop" = false := by decide
  have e7 : containsSub "trim" "patch" = false := by decide
  have e8 : containsSub "trim" "trim" = true := by decide
  have hnoop : ∀ ops : List GOp, make_power_2 ⟨4, 4, ops⟩ 4 = ⟨4, 4, ops⟩ :=
    fun ops => make_power_2_noop _ ⟨1, rfl⟩ ⟨1, rfl⟩
  simp [get_transform_apply, pipeline1, st_fixsize, st_resizeblock, st_zoom,
    st_crop, st_patch, st_trim, st_power, st_flip, st_convert, okImage,
    trim, npRandint, RNG.takeInt, pilCrop,
    e1, e2, e3, e4, e5, e6, e7, e8, hnoop,
    Bind.bind, Except.bind, pure, Except.pure]

/-- C4 (amended): the pipelines are deterministic — the outcome is
independent of the ambient random state — for every configuration whose
`preprocess` contains neither `"patch"` nor `"trim"`, given a
ParameterRecord containing all sampled values; with `"patch"` or
`"trim"` enabled the corresponding steps draw fresh randomness on every
call even when a full record is supplied. -/
theorem full_params_no_patch_trim_deterministic (opt : Opt) (p : ParamRecord)
    (img depth : Image) (g g' : RNG) (gs cv : Bool)
    (pos : Int × Int) (hcp : p.crop_pos = some pos)
    (b : Bool) (hfl : p.flip = some b)
    (fac : ℚ × ℚ) (hsf : p.scale_factor = some fac)
    (idx : Nat) (hpi : p.patch_index = some idx)
    (sz : Nat × Nat) (hsz : p.size = some sz)
    (hpatch : containsSub opt.preprocess "patch" = false)
    (htrim : containsSub opt.preprocess "trim" = false) :
    Except.map Prod.fst (get_transform_apply opt (some p) gs cv img g) =
      Except.map Prod.fst (get_transform_apply opt (some p) gs cv img g') ∧
    Except.map Prod.fst (dual_transform img depth opt (some p) gs cv g) =
      Except.map Prod.fst (dual_transform img depth opt (some p) gs cv g') := by
  constructor
  · unfold get_transform_apply
    exact rngFreeA_map_fst
      (rf_pipeline1 opt p gs cv pos hcp b hfl hpatch htrim) _ g g'
  · unfold dual_transform
    exact rngFreeA_map_fst
      (rf_pipelineD opt p gs cv pos hcp b hfl hpatch htrim) _ g g'

/-- C4 witness: the amended determinism at a concrete
`resize_and_crop` configuration, full record, and two different random
states. -/
theorem full_params_no_patch_trim_deterministic_witness :
    Except.map Prod.fst (get_transform_apply
      ⟨"resize_and_crop", 8, 4, false, ""⟩
      (some ⟨some (1, 1), some true, some ((9 : ℚ)/10, (9 : ℚ)/10), some 0,
        some (8, 8)⟩) false false ⟨10, 10, []⟩ ⟨[5], [(1 : ℚ)/3]⟩) =
    Except.map Prod.fst (get_transform_apply
      ⟨"resize_and_crop", 8, 4, false, ""⟩
      (some ⟨some (1, 1), some true, some ((9 : ℚ)/10, (9 : ℚ)/10), some 0,
        some (8, 8)⟩) false false ⟨10, 10, []⟩ ⟨[7], [(2 : ℚ)/3]⟩) :=
  (full_params_no_patch_trim_deterministic
    ⟨"resize_and_crop", 8, 4, false, ""⟩
    ⟨some (1, 1), some true, some ((9 : ℚ)/10, (9 : ℚ)/10), some 0, some (8, 8)⟩
    ⟨10, 10, []⟩ ⟨10, 10, []⟩ ⟨[5], [(1 : ℚ)/3]⟩ ⟨[7], [(2 : ℚ)/3]⟩ false false
    (1, 1) rfl true rfl ((9 : ℚ)/10, (9 : ℚ)/10) rfl 0 rfl (8, 8) rfl
    (by decide) (by decide)).1

end BaseData
